import Mathlib

/-!
Verification of the procedural avatar animation core
(`src/ui/components/app/vrm-avatar-scene.tsx`).

The per-frame animation loop is shallowly embedded here.  Purely
arithmetic frame computations (speech classification, blink timing,
expression mood machine, the expression-manager write sequence, audio
read failure handling, teardown) are modelled over `ℚ`, so they are
executable and decidable.  Computations involving `Math.pow` with a real
exponent or `Math.sin`/`Math.cos` (the smoothing utility, gesture and
body channels) are modelled over `ℝ` with `Real.rpow`, `Real.sin` and
`Real.cos`.  JavaScript `Math.random()` calls are modelled by explicit
parameters ranging over `[0,1)`.
-/

namespace Avatar

/-! ### Speech classification with hysteresis (lines 314-317)

```
const speakingThreshold = isSpeaking ? 0.015 : 0.025;
isSpeaking = audioVolume > speakingThreshold;
targetSpeechIntensity = isSpeaking ? Math.min(audioVolume * 2, 1) : 0;
```
-/

/-- threshold used on a frame: the exit threshold 0.015 while already
speaking, the entry threshold 0.025 while silent. -/
def speakingThreshold (isSpeaking : Bool) : ℚ :=
  if isSpeaking then 15/1000 else 25/1000

/-- one frame of the hysteresis classifier: `audioVolume > speakingThreshold`. -/
def stepSpeaking (isSpeaking : Bool) (audioVolume : ℚ) : Bool :=
  speakingThreshold isSpeaking < audioVolume

/-- intensity target of a frame: `isSpeaking ? Math.min(audioVolume * 2, 1) : 0`. -/
def targetSpeechIntensity (isSpeaking : Bool) (audioVolume : ℚ) : ℚ :=
  if isSpeaking then min (audioVolume * 2) 1 else 0

/-- sequence of `isSpeaking` values produced by feeding one volume sample
per frame to the classifier. -/
def speakingTrace (isSpeaking : Bool) : List ℚ → List Bool
  | [] => []
  | v :: vs =>
      let sp := stepSpeaking isSpeaking v
      sp :: speakingTrace sp vs

/-- sequence of per-frame intensity targets produced by feeding one volume
sample per frame to the classifier. -/
def intensityTargetTrace (isSpeaking : Bool) : List ℚ → List ℚ
  | [] => []
  | v :: vs =>
      let sp := stepSpeaking isSpeaking v
      targetSpeechIntensity sp v :: intensityTargetTrace sp vs

/-- the end-to-end volume sequence of the spec's test scenario. -/
def scenarioVolumes : List ℚ :=
  [0, 0, 3/100, 3/100, 3/100, 2/100, 16/1000, 1/100]

theorem speakingTrace_all_true
    (vs : List ℚ) (h : ∀ v ∈ vs, 15/1000 < v) :
    speakingTrace true vs = List.replicate vs.length true := by
  induction vs with
  | nil => rfl
  | cons v vs ih =>
      have hv : (15/1000 : ℚ) < v := h v (List.mem_cons_self v vs)
      have hsp : stepSpeaking true v = true := by
        simp [stepSpeaking, speakingThreshold, hv]
      simp only [speakingTrace, hsp, List.length_cons, List.replicate_succ,
        List.cons.injEq, true_and]
      exact ih fun w hw => h w (List.mem_cons_of_mem v hw)

/-- C1: entering Speaking needs volume above 0.025 and staying Speaking only
needs volume above 0.015, so a signal oscillating between 0.018 and 0.022
never leaves Speaking; 0.03, 0.016, 0.01 gives Speaking, Speaking, Silent;
the 8-frame scenario gives isSpeaking [F,F,T,T,T,T,T,F] with per-frame
intensity targets min(volume*2,1) while speaking — 0.06 on the 0.03 frames,
0.04 on the 0.02 frame, 0.032 on the 0.016 frame — and 0 afterwards. -/
theorem C1_hysteresis
    (vs : List ℚ) (h : ∀ v ∈ vs, v = 18/1000 ∨ v = 22/1000) :
    speakingTrace true vs = List.replicate vs.length true ∧
    speakingTrace false [3/100, 16/1000, 1/100] = [true, true, false] ∧
    speakingTrace false scenarioVolumes =
      [false, false, true, true, true, true, true, false] ∧
    intensityTargetTrace false scenarioVolumes =
      [0, 0, 6/100, 6/100, 6/100, 4/100, 32/1000, 0] := by
  refine ⟨?_, ?_, ?_, ?_⟩
  · refine speakingTrace_all_true vs fun v hv => ?_
    rcases h v hv with h' | h' <;> rw [h'] <;> norm_num
  · norm_num [speakingTrace, stepSpeaking, speakingThreshold]
  · norm_num [speakingTrace, stepSpeaking, speakingThreshold, scenarioVolumes]
  · norm_num [intensityTargetTrace, targetSpeechIntensity, stepSpeaking,
      speakingThreshold, scenarioVolumes]

/-- C1 witness: the oscillating signal 0.018, 0.022, 0.018, 0.022 keeps the
classifier in the Speaking state on every frame. -/
theorem C1_hysteresis_witness :
    speakingTrace true [18/1000, 22/1000, 18/1000, 22/1000] =
      List.replicate ([(18:ℚ)/1000, 22/1000, 18/1000, 22/1000]).length true :=
  (C1_hysteresis [18/1000, 22/1000, 18/1000, 22/1000] (by norm_num)).1

/-- C1 counterexample: frame 5 of the scenario (volume 0.02) is a speaking
frame, yet its intensity target is 0.04, not 0.06 — the claim's "intensity
target equal to min(volume*2, 1) = 0.06 on the speaking frames" fails. -/
theorem C1_counterexample :
    (speakingTrace false scenarioVolumes).get? 5 = some true ∧
    (intensityTargetTrace false scenarioVolumes).get? 5 = some (4/100) ∧
    intensityTargetTrace false scenarioVolumes ≠
      [0, 0, 6/100, 6/100, 6/100, 6/100, 6/100, 0] := by
  refine ⟨?_, ?_, ?_⟩
  · norm_num [speakingTrace, stepSpeaking, speakingThreshold, scenarioVolumes]
  · norm_num [intensityTargetTrace, targetSpeechIntensity, stepSpeaking,
      speakingThreshold, scenarioVolumes]
  · norm_num [intensityTargetTrace, targetSpeechIntensity, stepSpeaking,
      speakingThreshold, scenarioVolumes]

/-! ### Smoothing utility (lines 108-111)

```
const smoothLerp = (current, target, factor, deltaTime) => {
  const adjustedFactor = 1 - Math.pow(1 - factor, deltaTime * 60);
  return current + (target - current) * adjustedFactor;
};
```
-/

/-- framerate-independent exponential approach; `Math.pow` with a real
exponent is `Real.rpow`. -/
noncomputable def smoothLerp (current target factor deltaTime : ℝ) : ℝ :=
  current + (target - current) * (1 - (1 - factor) ^ (deltaTime * 60))

theorem smoothLerp_decay_pos {factor : ℝ} (h1 : factor < 1) (deltaTime : ℝ) :
    0 < (1 - factor) ^ (deltaTime * 60) :=
  Real.rpow_pos_of_pos (by linarith) _

theorem smoothLerp_decay_le_one {factor deltaTime : ℝ}
    (h0 : 0 < factor) (h1 : factor < 1) (hdt : 0 ≤ deltaTime) :
    (1 - factor) ^ (deltaTime * 60) ≤ 1 :=
  Real.rpow_le_one (by linarith) (by linarith) (by positivity)

theorem smoothLerp_residual (current target factor deltaTime : ℝ) :
    target - smoothLerp current target factor deltaTime
      = (target - current) * (1 - factor) ^ (deltaTime * 60) := by
  unfold smoothLerp; ring

theorem smoothLerp_between {current target factor deltaTime : ℝ}
    (h0 : 0 < factor) (h1 : factor < 1) (hdt : 0 ≤ deltaTime) :
    min current target ≤ smoothLerp current target factor deltaTime ∧
    smoothLerp current target factor deltaTime ≤ max current target := by
  have hp := smoothLerp_decay_pos h1 deltaTime
  have hle := smoothLerp_decay_le_one h0 h1 hdt
  unfold smoothLerp
  set A := (1 - factor) ^ (deltaTime * 60) with hA
  rcases le_total current target with hct | hct
  · rw [min_eq_left hct, max_eq_right hct]
    constructor <;> nlinarith
  · rw [min_eq_right hct, max_eq_left hct]
    constructor <;> nlinarith

/-- C2: the smoothing step returns
`current + (target - current) * (1 - (1 - rate)^(deltaTime*60))`; for any
rate in (0,1) and deltaTime ≥ 0 the result lies between current and target
inclusive and its distance to the target never increases, so a stationary
target is approached monotonically without overshoot. -/
theorem C2_smoothLerp_no_overshoot (current target rate deltaTime : ℝ)
    (h0 : 0 < rate) (h1 : rate < 1) (hdt : 0 ≤ deltaTime) :
    smoothLerp current target rate deltaTime
      = current + (target - current) * (1 - (1 - rate) ^ (deltaTime * 60)) ∧
    min current target ≤ smoothLerp current target rate deltaTime ∧
    smoothLerp current target rate deltaTime ≤ max current target ∧
    |target - smoothLerp current target rate deltaTime| ≤ |target - current| := by
  have hb := @smoothLerp_between current target rate deltaTime h0 h1 hdt
  refine ⟨rfl, hb.1, hb.2, ?_⟩
  rw [smoothLerp_residual, abs_mul]
  have hp := @smoothLerp_decay_pos rate h1 deltaTime
  have hle := @smoothLerp_decay_le_one rate deltaTime h0 h1 hdt
  calc |target - current| * |(1 - rate) ^ (deltaTime * 60)|
      = |target - current| * (1 - rate) ^ (deltaTime * 60) := by
        rw [abs_of_pos hp]
    _ ≤ |target - current| * 1 := by
        exact mul_le_mul_of_nonneg_left hle (abs_nonneg _)
    _ = |target - current| := mul_one _

/-- C2 witness: one smoothing step from 0 toward 1 with rate 1/2 and a
1/60-second frame stays between 0 and 1. -/
theorem C2_smoothLerp_no_overshoot_witness :
    min (0:ℝ) 1 ≤ smoothLerp 0 1 (1/2) (1/60) ∧
    smoothLerp 0 1 (1/2) (1/60) ≤ max (0:ℝ) 1 :=
  ⟨(C2_smoothLerp_no_overshoot 0 1 (1/2) (1/60) (by norm_num) (by norm_num)
      (by norm_num)).2.1,
   (C2_smoothLerp_no_overshoot 0 1 (1/2) (1/60) (by norm_num) (by norm_num)
      (by norm_num)).2.2.1⟩

/-! ### Iterated smoothing over a sequence of frame durations -/

/-- result of iterating the smoothing step over a list of frame durations
with a constant target. -/
noncomputable def smoothRun (rate target current : ℝ) : List ℝ → ℝ
  | [] => current
  | dt :: dts => smoothRun rate target (smoothLerp current target rate dt) dts

theorem smoothRun_residual (rate target : ℝ) (h1 : rate < 1)
    (current : ℝ) (dts : List ℝ) :
    target - smoothRun rate target current dts
      = (target - current) * (1 - rate) ^ (dts.sum * 60) := by
  induction dts generalizing current with
  | nil => simp [smoothRun]
  | cons dt dts ih =>
      have hb : (0:ℝ) < 1 - rate := by linarith
      rw [smoothRun, ih, smoothLerp_residual, List.sum_cons, add_mul,
        Real.rpow_add hb]
      ring

theorem smoothRun_le_target {rate target : ℝ} (h0 : 0 < rate) (h1 : rate < 1)
    {current : ℝ} {dts : List ℝ} (hdts : ∀ dt ∈ dts, 0 ≤ dt)
    (hct : current ≤ target) :
    smoothRun rate target current dts ≤ target := by
  induction dts generalizing current with
  | nil => exact hct
  | cons dt dts ih =>
      have h2 := (@smoothLerp_between current target rate dt h0 h1
        (hdts dt (List.mem_cons_self dt dts))).2
      rw [max_eq_right hct] at h2
      exact ih (fun d hd => hdts d (List.mem_cons_of_mem dt hd)) h2

/-- C3 (amended): iterating the smoothing step over deltaTimes summing to
S ≥ 5 leaves the residual `(target - current₀) * (1-rate)^(60·S)`, of
magnitude at most `|target - current₀| * (1-rate)^300`; a current value
starting at or below the target never exceeds it; and the final value is
within 1e-3 of the target whenever
`|target - current₀| * (1-rate)^300 ≤ 1e-3`. -/
theorem C3_convergence (rate current target : ℝ) (h0 : 0 < rate) (h1 : rate < 1)
    (dts : List ℝ) (hdts : ∀ dt ∈ dts, 0 ≤ dt) (hsum : 5 ≤ dts.sum) :
    target - smoothRun rate target current dts
      = (target - current) * (1 - rate) ^ (dts.sum * 60) ∧
    |target - smoothRun rate target current dts|
      ≤ |target - current| * (1 - rate) ^ (300 : ℝ) ∧
    (current ≤ target → smoothRun rate target current dts ≤ target) ∧
    (|target - current| * (1 - rate) ^ (300 : ℝ) ≤ 1/1000 →
      |target - smoothRun rate target current dts| ≤ 1/1000) := by
  have hres := smoothRun_residual rate target h1 current dts
  have hb : (0:ℝ) < 1 - rate := by linarith
  have hbound : |target - smoothRun rate target current dts|
      ≤ |target - current| * (1 - rate) ^ (300 : ℝ) := by
    rw [hres, abs_mul, abs_of_pos (Real.rpow_pos_of_pos hb _)]
    refine mul_le_mul_of_nonneg_left ?_ (abs_nonneg _)
    exact Real.rpow_le_rpow_of_exponent_ge hb (by linarith) (by linarith)
  exact ⟨hres, hbound, fun hct => smoothRun_le_target h0 h1 hdts hct,
    fun hsmall => le_trans hbound hsmall⟩

/-- C3 witness: a single 5-second step with rate 1/2 from 0 toward 1 never
exceeds the target 1. -/
theorem C3_convergence_witness :
    smoothRun (1/2) 1 0 [5] ≤ 1 :=
  (C3_convergence (1/2) 0 1 (by norm_num) (by norm_num) [5]
    (by norm_num) (by norm_num)).2.2.1 (by norm_num)

/-- C3 counterexample: rate 1/1000 ∈ (0,1), one 5-second frame (sum ≥ 5),
current 0, target 1: the final value is still more than 1e-3 away from the
target, refuting "for every rate in (0,1) ... within 1e-3". -/
theorem C3_counterexample :
    (0:ℝ) < 1/1000 ∧ (1/1000 : ℝ) < 1 ∧
    (∀ dt ∈ [(5:ℝ)], 0 ≤ dt) ∧ (5:ℝ) ≤ ([(5:ℝ)]).sum ∧
    1/1000 < |1 - smoothRun (1/1000) 1 0 [5]| := by
  refine ⟨by norm_num, by norm_num, by norm_num, by norm_num, ?_⟩
  have hres := smoothRun_residual (1/1000) 1 (by norm_num) 0 [5]
  rw [hres]
  have h5 : (([(5:ℝ)]).sum * 60) = ((300 : ℕ) : ℝ) := by norm_num
  rw [h5, Real.rpow_natCast]
  rw [abs_of_pos (by positivity)]
  have : ((1:ℝ) - 1/1000) = 999/1000 := by norm_num
  rw [this]
  have hgt : (1:ℝ)/1000 < (999/1000 : ℝ) ^ (300 : ℕ) := by
    norm_num
  calc (1:ℝ)/1000 < (999/1000 : ℝ) ^ (300 : ℕ) := hgt
    _ = (1 - 0) * (999/1000 : ℝ) ^ (300 : ℕ) := by ring

/-! ### Natural blinking (lines 95-97 and 350-356)

```
const easeInOutCubic = (t) => t < 0.5 ? 4 * t * t * t : 1 - Math.pow(-2 * t + 2, 3) / 2;
if (elapsedTime >= nextBlinkTime && !isSpeaking) {
  nextBlinkTime = elapsedTime + 2.5 + Math.random() * 3.5;
}
const blinkProgress = Math.max(0, 1 - Math.abs(elapsedTime - nextBlinkTime + 0.15) / 0.15);
const smoothBlinkProgress = easeInOutCubic(blinkProgress);
targetExpressionValues.blink = smoothBlinkProgress;
```
-/

/-- cubic ease-in-out used for the blink pulse. -/
def easeInOutCubic (t : ℚ) : ℚ :=
  if t < 1/2 then 4 * t^3 else 1 - (-2*t + 2)^3 / 2

/-- raw triangular blink pulse before easing. -/
def blinkProgress (elapsedTime nextBlinkTime : ℚ) : ℚ :=
  max 0 (1 - |elapsedTime - nextBlinkTime + 15/100| / (15/100))

/-- eased blink-weight target of a frame. -/
def blinkTarget (elapsedTime nextBlinkTime : ℚ) : ℚ :=
  easeInOutCubic (blinkProgress elapsedTime nextBlinkTime)

/-- one frame of the blink logic: reseed the timer when due and not
speaking, then compute the eased pulse from the updated timer; the random
draw `r` ranges over `[0,1)`. -/
def blinkFrame (isSpeaking : Bool) (elapsedTime nextBlinkTime r : ℚ) : ℚ × ℚ :=
  let nb := if nextBlinkTime ≤ elapsedTime ∧ isSpeaking = false
            then elapsedTime + 5/2 + r * (7/2) else nextBlinkTime
  (nb, blinkTarget elapsedTime nb)

theorem easeInOutCubic_mem_unit {x : ℚ} (h0 : 0 ≤ x) (h1 : x ≤ 1) :
    0 ≤ easeInOutCubic x ∧ easeInOutCubic x ≤ 1 := by
  unfold easeInOutCubic
  split_ifs with hx
  · constructor <;>
      nlinarith [mul_nonneg (mul_nonneg h0 h0) h0, mul_nonneg h0 h0,
        sq_nonneg (1 - 2*x)]
  · push_neg at hx
    constructor <;>
      nlinarith [mul_nonneg (mul_nonneg (by linarith : (0:ℚ) ≤ 1 - x)
        (by linarith : (0:ℚ) ≤ 1 - x)) (by linarith : (0:ℚ) ≤ 1 - x),
        sq_nonneg (1 - x)]

theorem blinkProgress_mem_unit (elapsedTime nextBlinkTime : ℚ) :
    0 ≤ blinkProgress elapsedTime nextBlinkTime ∧
    blinkProgress elapsedTime nextBlinkTime ≤ 1 := by
  unfold blinkProgress
  constructor
  · exact le_max_left 0 _
  · refine max_le (by norm_num) ?_
    have : (0:ℚ) ≤ |elapsedTime - nextBlinkTime + 15/100| / (15/100) := by
      positivity
    linarith

/-- C4 (amended): when the timer is due and the avatar is not speaking the
timer is reseeded to now + 2.5..6.0 s; the blink-weight target is always an
eased pulse value in [0,1], computed on every frame (speaking or not) from
the updated timer; the pulse peaks at `nextBlinkTime - 0.15` and vanishes
outside `[nextBlinkTime - 0.3, nextBlinkTime]` — its support ends at
`nextBlinkTime` rather than being centered there. -/
theorem C4_blink (isSpeaking : Bool) (t nb r : ℚ)
    (hdue : nb ≤ t) (hr0 : 0 ≤ r) (hr1 : r < 1) :
    (isSpeaking = false →
      t + 5/2 ≤ (blinkFrame isSpeaking t nb r).1 ∧
      (blinkFrame isSpeaking t nb r).1 < t + 6) ∧
    (∀ u v : ℚ, 0 ≤ blinkTarget u v ∧ blinkTarget u v ≤ 1) ∧
    (∀ v : ℚ, blinkTarget (v - 3/20) v = 1) ∧
    (∀ u v : ℚ, (u ≤ v - 3/10 ∨ v ≤ u) → blinkTarget u v = 0) ∧
    (∀ (sp : Bool) (u v s : ℚ),
      (blinkFrame sp u v s).2 = blinkTarget u ((blinkFrame sp u v s).1)) := by
  refine ⟨?_, ?_, ?_, ?_, fun sp u v s => rfl⟩
  · intro hsp
    simp only [blinkFrame, hsp, hdue, and_self, if_true, and_true]
    constructor <;> nlinarith
  · intro u v
    have hbp := blinkProgress_mem_unit u v
    exact easeInOutCubic_mem_unit hbp.1 hbp.2
  · intro v
    have h1 : blinkProgress (v - 3/20) v = 1 := by
      unfold blinkProgress
      have : v - 3/20 - v + 15/100 = 0 := by ring
      rw [this]
      norm_num
    rw [blinkTarget, h1]
    norm_num [easeInOutCubic]
  · intro u v hu
    have h0 : blinkProgress u v = 0 := by
      unfold blinkProgress
      have habs : (15/100 : ℚ) ≤ |u - v + 15/100| := by
        rcases hu with hu | hu
        · calc (15/100 : ℚ) ≤ -(u - v + 15/100) := by linarith
            _ ≤ |u - v + 15/100| := neg_le_abs _
        · calc (15/100 : ℚ) ≤ u - v + 15/100 := by linarith
          _ ≤ |u - v + 15/100| := le_abs_self _
      have hle : 1 - |u - v + 15/100| / (15/100) ≤ 0 := by
        have := (div_le_div_iff_of_pos_right (c := (15/100:ℚ)) (by norm_num)).2 habs
        have h15 : (15/100 : ℚ) / (15/100) = 1 := by norm_num
        rw [h15] at this
        linarith
      exact max_eq_left hle
    rw [blinkTarget, h0]
    norm_num [easeInOutCubic]

/-- C4 witness: a due timer at t = 10 with r = 1/2 is reseeded into
[12.5, 16), and the pulse peak for nextBlinkTime = 1 sits at 0.85. -/
theorem C4_blink_witness :
    ((10:ℚ) + 5/2 ≤ (blinkFrame false 10 2 (1/2)).1 ∧
      (blinkFrame false 10 2 (1/2)).1 < 10 + 6) ∧
    blinkTarget ((1:ℚ) - 3/20) 1 = 1 :=
  ⟨(C4_blink false 10 2 (1/2) (by norm_num) (by norm_num) (by norm_num)).1 rfl,
   (C4_blink false 10 2 (1/2) (by norm_num) (by norm_num) (by norm_num)).2.2.1 1⟩

/-- C4 counterexample: the pulse is not centered on nextBlinkTime — at the
claimed center (t = nextBlinkTime = 1) the blink target is 0, while the
actual peak value 1 occurs at t = 0.85 = nextBlinkTime - 0.15. -/
theorem C4_counterexample :
    blinkTarget 1 1 = 0 ∧ blinkTarget (17/20) 1 = 1 := by
  constructor
  · have h : blinkProgress 1 1 = 0 := by
      unfold blinkProgress
      rw [show (1:ℚ) - 1 + 15/100 = 15/100 by ring,
        abs_of_pos (by norm_num : (0:ℚ) < 15/100)]
      norm_num
    rw [blinkTarget, h]
    norm_num [easeInOutCubic]
  · have h : blinkProgress (17/20) 1 = 1 := by
      unfold blinkProgress
      rw [show (17:ℚ)/20 - 1 + 15/100 = 0 by ring]
      norm_num
    rw [blinkTarget, h]
    norm_num [easeInOutCubic]

/-! ### Audio analysis with per-frame read failure (lines 294-321, 358-369)

The locals `audioVolume`, `lowFreq`, `midFreq`, `highFreq` are initialised
to 0 on every frame; the `try` block recomputes them and the speaking
state from the spectrum, and a thrown `getByteFrequencyData` is caught and
logged (`console.warn`), leaving the zero locals and the previous
`isSpeaking` / `targetSpeechIntensity` in place.  A failed read — and
equally an absent analyser — is modelled by `none`; the swallowed
exception is modelled by the frame function being total. -/

/-- per-frame audio observation: overall volume and the three band
energies actually used later in the frame. -/
structure AudioObs where
  volume : ℚ
  lowFreq : ℚ
  midFreq : ℚ
  highFreq : ℚ

/-- volume of a spectrum read: mean of the byte bins normalised by 255. -/
def binVolume (data : List ℕ) : ℚ :=
  ((data.map (fun b => (b : ℚ))).sum) / (data.length : ℚ) / 255

/-- mean of one contiguous third of the byte bins, normalised by 255;
`third` is `Math.floor(dataArray.length / 3)`. -/
def bandMean (seg : List ℕ) (third : ℕ) : ℚ :=
  ((seg.map (fun b => (b : ℚ))).sum) / (third : ℚ) / 255

/-- one frame of the audio-analysis block: on a successful read the
observation and the classifier update; on a failed read (or no analyser)
the zeroed locals together with the previous speaking state and intensity
target. -/
def audioFrame (prevSpeaking : Bool) (prevTarget : ℚ) (bins : Option (List ℕ)) :
    AudioObs × Bool × ℚ :=
  match bins with
  | none => (⟨0, 0, 0, 0⟩, prevSpeaking, prevTarget)
  | some data =>
      let third := data.length / 3
      let obs : AudioObs :=
        { volume := binVolume data
          lowFreq := bandMean (data.take third) third
          midFreq := bandMean ((data.drop third).take third) third
          highFreq := bandMean (data.drop (third * 2)) third }
      let sp := stepSpeaking prevSpeaking obs.volume
      (obs, sp, targetSpeechIntensity sp obs.volume)

/-- mouth-shape targets of a frame (lines 359-369): band-weighted while
speaking, zero while silent. -/
def targetMouthShapes (isSpeaking : Bool) (lowFreq midFreq highFreq : ℚ) :
    ℚ × ℚ × ℚ × ℚ :=
  if isSpeaking
  then (lowFreq * (8/10), highFreq * (6/10), midFreq * (5/10),
        (lowFreq + midFreq) * (4/10))
  else (0, 0, 0, 0)

/-- C8 (amended): a failed spectrum read is swallowed — the frame function
is total and returns normally — and isSpeaking and the intensity target do
persist from the previous frame; but the frame-local volume and
frequency-band values are reset to 0, not kept at their last-known values,
so the mouth-shape targets computed from them that frame are all 0 even
though the persisted isSpeaking may still be true. -/
theorem C8_audio_read_failure (prevSpeaking : Bool) (prevTarget : ℚ) :
    audioFrame prevSpeaking prevTarget none = (⟨0, 0, 0, 0⟩, prevSpeaking, prevTarget) ∧
    (audioFrame prevSpeaking prevTarget none).2.1 = prevSpeaking ∧
    (audioFrame prevSpeaking prevTarget none).2.2 = prevTarget ∧
    targetMouthShapes prevSpeaking 0 0 0 = (0, 0, 0, 0) := by
  refine ⟨rfl, rfl, rfl, ?_⟩
  cases prevSpeaking <;> norm_num [targetMouthShapes]

/-- C8 counterexample: after a successful frame reading a full-scale
spectrum (volume 1, isSpeaking true), a failing frame keeps isSpeaking and
the intensity target but reports volume 0, not the last-known volume 1. -/
theorem C8_counterexample :
    (audioFrame false 0 (some [255, 255, 255])).1.volume = 1 ∧
    (audioFrame false 0 (some [255, 255, 255])).2.1 = true ∧
    (audioFrame true 1 none).2.1 = true ∧
    (audioFrame true 1 none).2.2 = 1 ∧
    (audioFrame true 1 none).1.volume = 0 ∧
    (audioFrame true 1 none).1.volume ≠ (audioFrame false 0 (some [255, 255, 255])).1.volume := by
  have hvol : (audioFrame false 0 (some [255, 255, 255])).1.volume = 1 := by
    norm_num [audioFrame, binVolume]
  refine ⟨hvol, ?_, rfl, rfl, rfl, ?_⟩
  · have : stepSpeaking false 1 = true := by
      norm_num [stepSpeaking, speakingThreshold]
    simp only [audioFrame]
    rw [show binVolume [255, 255, 255] = 1 by norm_num [binVolume]]
    exact this
  · rw [hvol]
    norm_num [audioFrame]

/-! ### Teardown (lines 762-792)

The effect-cleanup callback disconnects the audio source, closes the audio
context, disposes scene resources, and finally calls
`container.removeChild(renderer.domElement)`.  Per the Web Audio API,
`disconnect()` on a disconnected node and `close()` on a closed context do
not throw synchronously (the latter rejects an unobserved promise); per
the DOM contract, `removeChild` throws `NotFoundError` when the given node
is not a child of the container. -/

/-- error a teardown call can raise: the DOM `NotFoundError` from
`removeChild`. -/
inductive TeardownError
  | notFound

/-- resources held by one avatar scene instance. -/
structure SceneResources where
  audioSourceConnected : Bool
  audioContextOpen : Bool
  canvasAttached : Bool

/-- the cleanup routine: release audio, then detach the renderer's canvas;
detaching an already-detached canvas throws `NotFoundError`. -/
def teardown (s : SceneResources) : Except TeardownError SceneResources :=
  let s1 : SceneResources :=
    { s with audioSourceConnected := false, audioContextOpen := false }
  if s1.canvasAttached
  then Except.ok { s1 with canvasAttached := false }
  else Except.error TeardownError.notFound

/-- C9: a first teardown of a live scene succeeds and leaves no live audio
node, but a second teardown throws `NotFoundError` from
`container.removeChild` instead of being an idempotent no-op — the double
call the claim requires to be error-free fails. -/
theorem C9_teardown_double_failure :
    teardown ⟨true, true, true⟩ = Except.ok ⟨false, false, false⟩ ∧
    (SceneResources.mk false false false).audioSourceConnected = false ∧
    (SceneResources.mk false false false).audioContextOpen = false ∧
    teardown ⟨false, false, false⟩ = Except.error TeardownError.notFound :=
  ⟨rfl, rfl, rfl, rfl⟩

/-! ### Emotive mood machine (lines 327-344) -/

/-- facial mood; `neutral` is the silence mood, the other four are drawn
while speaking from `['happy', 'surprised', 'thinking', 'relaxed']`. -/
inductive Mood
  | neutral
  | happy
  | surprised
  | thinking
  | relaxed
deriving DecidableEq

/-- mood at an index of the `expressions` array;
`Math.floor(Math.random() * expressions.length)` yields 0..3. -/
def pickMood (i : ℕ) : Mood :=
  match i with
  | 0 => Mood.happy
  | 1 => Mood.surprised
  | 2 => Mood.thinking
  | _ => Mood.relaxed

/-- expression sub-machine state. -/
structure ExprState where
  currentExpression : Mood
  previousExpression : Mood
  targetExpressionIntensity : ℚ
  nextExpressionTime : ℚ
  expressionTransitionProgress : ℚ

/-- mood selection of a frame (lines 327-339): while speaking, when the
timer is due and the previous transition finished, pick a new mood, target
intensity 0.25 + r·0.35 and timer now + 2.5 + r·3; on a silent frame with a
non-neutral mood, force neutral with target intensity 0. -/
def exprSelect (isSpeaking : Bool) (s : ExprState) (elapsedTime rMood rInt rTime : ℚ) :
    ExprState :=
  if isSpeaking = true ∧ s.nextExpressionTime ≤ elapsedTime ∧
      1 ≤ s.expressionTransitionProgress then
    { s with previousExpression := s.currentExpression,
             currentExpression := pickMood (⌊rMood * 4⌋).toNat,
             targetExpressionIntensity := 1/4 + rInt * (35/100),
             nextExpressionTime := elapsedTime + 5/2 + rTime * 3,
             expressionTransitionProgress := 0 }
  else if isSpeaking = false ∧ s.currentExpression ≠ Mood.neutral then
    { s with previousExpression := s.currentExpression,
             currentExpression := Mood.neutral,
             targetExpressionIntensity := 0,
             expressionTransitionProgress := 0 }
  else s

/-- full expression-state frame: mood selection followed by the transition
ramp `min(1, progress + deltaTime * 0.8)` (lines 342-344). -/
def exprFrame (isSpeaking : Bool) (s : ExprState) (elapsedTime deltaTime rMood rInt rTime : ℚ) :
    ExprState :=
  let s1 := exprSelect isSpeaking s elapsedTime rMood rInt rTime
  if s1.expressionTransitionProgress < 1
  then { s1 with
          expressionTransitionProgress := min 1 (s1.expressionTransitionProgress + deltaTime * (8/10)) }
  else s1

/-! ### Expression writes of one frame (lines 407-418 and 571-575)

`vrm.expressionManager.setValue` is modelled as an association-list write
where later writes shadow earlier ones; the value read by the renderer is
the last write of the frame. -/

/-- names of the expression channels written by the frame; they stand for
the source's string keys 'aa', 'ih', 'ou', 'oh', 'blink', 'happy',
'surprised', 'relaxed', 'neutral'. -/
inductive ExprName
  | aa
  | ih
  | ou
  | oh
  | blink
  | happy
  | surprised
  | relaxed
  | neutral
deriving DecidableEq, BEq

/-- one `expressionManager.setValue` call. -/
def setValue (m : List (ExprName × ℝ)) (k : ExprName) (v : ℝ) : List (ExprName × ℝ) :=
  (k, v) :: m

/-- the expression writes of one frame in source order: the clamped mouth
shapes, blink and the smoothed emotive weights (lines 409-417), then —
while speaking with a neutral mood — the eyebrow-driven overwrite of
'surprised' (lines 573-575). -/
noncomputable def frameExpressionWrites
    (mouthAa mouthIh mouthOu mouthOh blinkV happyV surprisedV relaxedV neutralV
      eyebrowIntensity : ℝ)
    (isSpeaking : Bool) (currentExpression : Mood) : List (ExprName × ℝ) :=
  let m := setValue (setValue (setValue (setValue (setValue (setValue (setValue
    (setValue (setValue []
      ExprName.aa (min mouthAa 1)) ExprName.ih (min mouthIh 1))
      ExprName.ou (min mouthOu 1)) ExprName.oh (min mouthOh 1))
      ExprName.blink blinkV) ExprName.happy happyV)
      ExprName.surprised surprisedV) ExprName.relaxed relaxedV)
      ExprName.neutral neutralV
  if isSpeaking = true ∧ currentExpression = Mood.neutral
  then setValue m ExprName.surprised (eyebrowIntensity * (15/100))
  else m

/-- C10: on a speaking frame with neutral mood the 'surprised' weight that
survives the frame is `eyebrowIntensity * 0.15`, the later write shadowing
the smoothed `expressionValues.surprised` written earlier in the frame; on
every other frame it is the smoothed `expressionValues.surprised`. -/
theorem C10_surprised_overwrite
    (mouthAa mouthIh mouthOu mouthOh blinkV happyV surprisedV relaxedV neutralV
      eyebrowIntensity : ℝ)
    (isSpeaking : Bool) (currentExpression : Mood) :
    (frameExpressionWrites mouthAa mouthIh mouthOu mouthOh blinkV happyV
        surprisedV relaxedV neutralV eyebrowIntensity isSpeaking
        currentExpression).lookup ExprName.surprised
      = some (if isSpeaking = true ∧ currentExpression = Mood.neutral
              then eyebrowIntensity * (15/100) else surprisedV) := by
  by_cases h : isSpeaking = true ∧ currentExpression = Mood.neutral
  · rw [if_pos h]
    simp only [frameExpressionWrites, if_pos h, setValue, List.lookup]
    rfl
  · rw [if_neg h]
    simp only [frameExpressionWrites, if_neg h, setValue, List.lookup]
    rfl

/-! ### Gesture controller (lines 103-105 and 441-548)

Head/neck rotation targets.  The speaking branch reselects the gesture
variant when `elapsedTime >= nextGestureTime`, advances the phase and the
transition ramp and blends the previous head target toward the variant
formula; the idle branch overwrites the targets with the idle-wander
formulas and resets `currentGesture = 0`, `gesturePhase = 0`,
`gestureTransitionProgress = 1`, `nextGestureTime = elapsedTime + 2`. -/

/-- triple of rotation components. -/
structure Vec3 where
  x : ℝ
  y : ℝ
  z : ℝ

/-- gesture-controller state carried across frames. -/
structure GestureState where
  currentGesture : ℕ
  previousGesture : ℕ
  gesturePhase : ℝ
  nextGestureTime : ℝ
  gestureTransitionProgress : ℝ
  targetHeadRotation : Vec3
  previousHeadRotation : Vec3
  targetNeckRotation : Vec3
  targetEyebrowIntensity : ℝ

/-- quadratic ease-in-out (lines 103-105). -/
noncomputable def easeInOutQuad (t : ℝ) : ℝ :=
  if t < 1/2 then 2 * t^2 else 1 - (-2*t + 2)^2 / 2

/-- head-rotation formula of each gesture variant (switch, lines 473-520);
`p` is `gesturePhase`, `t` is `elapsedTime`. -/
noncomputable def newTargetHeadRotation (g : ℕ) (p t : ℝ) : Vec3 :=
  match g with
  | 1 => ⟨Real.sin (p * 2) * 0.08, Real.sin (t * 0.3) * 0.015, 0⟩
  | 2 => ⟨Real.sin (t * 0.5) * 0.025, Real.sin (t * 0.4) * 0.035,
          Real.sin (p * 1) * 0.06⟩
  | 3 => ⟨Real.sin (t * 0.4) * 0.018, Real.sin (p * 1.8) * 0.055, 0⟩
  | 4 => ⟨0.04 + Real.sin (t * 0.6) * 0.015, Real.sin (t * 0.4) * 0.025, 0⟩
  | 5 => ⟨Real.sin (t * 0.5) * 0.018, 0.05 + Real.sin (p * 1.2) * 0.025,
          Real.sin (t * 0.4) * 0.015⟩
  | 6 => ⟨0.06 + Real.sin (t * 0.5) * 0.02, Real.sin (t * 0.3) * 0.02,
          Real.sin (t * 0.4) * 0.01⟩
  | _ => ⟨Real.sin (t * 0.5) * 0.02, Real.sin (t * 0.4) * 0.028,
          Real.sin (t * 0.3) * 0.012⟩

/-- neck-rotation formula of each gesture variant. -/
noncomputable def newTargetNeckRotation (g : ℕ) (p t : ℝ) : Vec3 :=
  match g with
  | 1 => ⟨Real.sin (p * 2) * 0.025, 0, 0⟩
  | 2 => ⟨0, 0, Real.sin (p * 1) * 0.018⟩
  | 3 => ⟨0, Real.sin (p * 1.8) * 0.018, 0⟩
  | 4 => ⟨0.025, 0, 0⟩
  | 5 => ⟨0, 0.018, 0⟩
  | 6 => ⟨0.03, 0, 0⟩
  | _ => ⟨Real.sin (t * 0.6) * 0.008, Real.sin (t * 0.5) * 0.008, 0⟩

/-- eyebrow target of each gesture variant. -/
noncomputable def newTargetEyebrow (g : ℕ) : ℝ :=
  match g with
  | 1 => 0.18
  | 2 => 0.12
  | 3 => 0.08
  | 4 => 0.2
  | 5 => 0.08
  | 6 => 0.1
  | _ => 0.04

/-- gesture reselection when the timer is due (lines 448-458); `rVar` and
`rTime` are the `Math.random()` draws in `[0,1)`. -/
noncomputable def gestureSelect (s : GestureState) (t rVar rTime : ℝ) : GestureState :=
  if s.nextGestureTime ≤ t then
    { s with previousGesture := s.currentGesture,
             previousHeadRotation := s.targetHeadRotation,
             currentGesture := (⌊rVar * 7⌋).toNat,
             nextGestureTime := t + 2 + rTime * 2,
             gesturePhase := 0,
             gestureTransitionProgress := 0 }
  else s

/-- the speaking branch of the head block (lines 446-534): reselect when
due, advance the phase by deltaTime, ramp the transition by
`min(1, progress + deltaTime * 1.5)`, blend the previous head target
toward the variant formula by the eased progress, and add the
speech-driven micro-movement to the x and y head targets. -/
noncomputable def gestureSpeakingFrame (s : GestureState)
    (t dt speechIntensity rVar rTime : ℝ) : GestureState :=
  let s1 := gestureSelect s t rVar rTime
  let s2 := { s1 with gesturePhase := s1.gesturePhase + dt }
  let s3 := if s2.gestureTransitionProgress < 1
            then { s2 with
                    gestureTransitionProgress := min 1 (s2.gestureTransitionProgress + dt * 1.5) }
            else s2
  let e := easeInOutQuad s3.gestureTransitionProgress
  let nh := newTargetHeadRotation s3.currentGesture s3.gesturePhase t
  let nn := newTargetNeckRotation s3.currentGesture s3.gesturePhase t
  { s3 with
      targetHeadRotation :=
        ⟨s3.previousHeadRotation.x + (nh.x - s3.previousHeadRotation.x) * e
            + speechIntensity * Real.sin (t * 2.2) * 0.012,
          s3.previousHeadRotation.y + (nh.y - s3.previousHeadRotation.y) * e
            + speechIntensity * Real.cos (t * 1.8) * 0.01,
          s3.previousHeadRotation.z + (nh.z - s3.previousHeadRotation.z) * e⟩,
      targetNeckRotation := nn,
      targetEyebrowIntensity := newTargetEyebrow s3.currentGesture }

/-- the idle branch of the head block (lines 535-548). -/
noncomputable def gestureIdleFrame (s : GestureState) (t : ℝ) : GestureState :=
  { s with
      targetHeadRotation := ⟨Real.sin (t * 0.35) * 0.035, Real.sin (t * 0.28) * 0.05,
        Real.sin (t * 0.22) * 0.012⟩,
      targetNeckRotation := ⟨Real.sin (t * 0.4) * 0.008, Real.sin (t * 0.3) * 0.008, 0⟩,
      targetEyebrowIntensity := 0,
      currentGesture := 0,
      gesturePhase := 0,
      gestureTransitionProgress := 1,
      nextGestureTime := t + 2 }

/-- one gesture-controller frame. -/
noncomputable def gestureFrame (isSpeaking : Bool) (s : GestureState)
    (t dt speechIntensity rVar rTime : ℝ) : GestureState :=
  if isSpeaking then gestureSpeakingFrame s t dt speechIntensity rVar rTime
  else gestureIdleFrame s t

/-- C5 (amended): on a Speaking frame where elapsedTime ≥ nextSelectTime the
controller snapshots the current head target as previousTarget, chooses the
variant ⌊r·7⌋ — one of the 7 variants — reseeds nextSelectTime to
now + 2..4 s and resets transitionProgress and phase to 0 (so after the
same frame's advance they equal dt·1.5 capped at 1 and dt).  Entry into
Speaking does not itself trigger a selection: selection happens only
through this timer, which every idle frame reseeds to now + 2. -/
theorem C5_gesture_reselect (s : GestureState) (t dt speechIntensity rVar rTime : ℝ)
    (hdue : s.nextGestureTime ≤ t) (hr0 : 0 ≤ rVar) (hr1 : rVar < 1) :
    (gestureFrame true s t dt speechIntensity rVar rTime).previousHeadRotation
      = s.targetHeadRotation ∧
    (gestureFrame true s t dt speechIntensity rVar rTime).previousGesture
      = s.currentGesture ∧
    (gestureFrame true s t dt speechIntensity rVar rTime).currentGesture
      = (⌊rVar * 7⌋).toNat ∧
    (gestureFrame true s t dt speechIntensity rVar rTime).currentGesture < 7 ∧
    (gestureFrame true s t dt speechIntensity rVar rTime).nextGestureTime
      = t + 2 + rTime * 2 ∧
    (gestureFrame true s t dt speechIntensity rVar rTime).gesturePhase = 0 + dt ∧
    (gestureFrame true s t dt speechIntensity rVar rTime).gestureTransitionProgress
      = min 1 (0 + dt * 1.5) := by
  have hfloor : (⌊rVar * 7⌋).toNat < 7 := by
    have h7 : rVar * 7 < 7 := by nlinarith
    have : ⌊rVar * 7⌋ < (7 : ℤ) := by
      exact_mod_cast Int.floor_lt.2 (by exact_mod_cast h7)
    omega
  simp only [gestureFrame, gestureSpeakingFrame, gestureSelect, if_pos hdue, if_true]
  norm_num
  exact hfloor

/-- C5 witness: a due timer at t = 5 with draws 1/2, 1/2 picks variant
⌊3.5⌋ = 3 and reseeds the timer to 8. -/
theorem C5_gesture_reselect_witness :
    (gestureFrame true ⟨4, 0, 1, 5, 1, ⟨1, 2, 3⟩, ⟨0, 0, 0⟩, ⟨0, 0, 0⟩, 0⟩
        5 (1/60) 0 (1/2) (1/2)).previousHeadRotation = Vec3.mk 1 2 3 ∧
    (gestureFrame true ⟨4, 0, 1, 5, 1, ⟨1, 2, 3⟩, ⟨0, 0, 0⟩, ⟨0, 0, 0⟩, 0⟩
        5 (1/60) 0 (1/2) (1/2)).currentGesture = (⌊(1/2 : ℝ) * 7⌋).toNat ∧
    (gestureFrame true ⟨4, 0, 1, 5, 1, ⟨1, 2, 3⟩, ⟨0, 0, 0⟩, ⟨0, 0, 0⟩, 0⟩
        5 (1/60) 0 (1/2) (1/2)).nextGestureTime = 5 + 2 + (1/2) * 2 := by
  have h := C5_gesture_reselect ⟨4, 0, 1, 5, 1, ⟨1, 2, 3⟩, ⟨0, 0, 0⟩, ⟨0, 0, 0⟩, 0⟩
    5 (1/60) 0 (1/2) (1/2) (by norm_num) (by norm_num) (by norm_num)
  exact ⟨h.1, h.2.2.1, h.2.2.2.2.1⟩

/-- gesture state at the moment of entering Speaking: the state left by an
idle frame at time 0 (which reset the variant to 0 and the timer to 2). -/
noncomputable def entryGestureState : GestureState :=
  gestureIdleFrame ⟨3, 0, 1, 0, 1, ⟨0, 0, 0⟩, ⟨0, 0, 0⟩, ⟨0, 0, 0⟩, 0⟩ 0

/-- C5 counterexample: on the first Speaking frame after an idle frame (the
entry into Speaking, at t = 1/60) no new variant is selected — the variant
stays 0 and the timer stays 2, although a selection with draw 0.99 would
have produced variant 6 — refuting "a new variant is selected upon entry
into Speaking". -/
theorem C5_counterexample :
    entryGestureState.currentGesture = 0 ∧
    entryGestureState.nextGestureTime = 2 ∧
    (gestureFrame true entryGestureState (1/60) (1/60) 0 (99/100) (1/2)).currentGesture = 0 ∧
    ((⌊(99/100 : ℝ) * 7⌋).toNat = 6 ∧
      (gestureFrame true entryGestureState (1/60) (1/60) 0 (99/100) (1/2)).currentGesture ≠
        (⌊(99/100 : ℝ) * 7⌋).toNat) ∧
    (gestureFrame true entryGestureState (1/60) (1/60) 0 (99/100) (1/2)).nextGestureTime = 2 := by
  have hstate : entryGestureState.currentGesture = 0 ∧ entryGestureState.nextGestureTime = 2 := by
    constructor <;> simp [entryGestureState, gestureIdleFrame]
  have hnotdue : ¬ (entryGestureState.nextGestureTime ≤ (1/60 : ℝ)) := by
    rw [hstate.2]; norm_num
  have hfloor : (⌊(99/100 : ℝ) * 7⌋).toNat = 6 := by
    have h6 : ⌊(99/100 : ℝ) * 7⌋ = 6 := by
      rw [Int.floor_eq_iff] <;> norm_num
    rw [h6]; rfl
  have hprog : entryGestureState.gestureTransitionProgress = 1 := by
    simp [entryGestureState, gestureIdleFrame]
  refine ⟨hstate.1, hstate.2, ?_, ⟨hfloor, ?_⟩, ?_⟩
  · simp only [gestureFrame, gestureSpeakingFrame, gestureSelect, if_neg hnotdue, if_true]
    rw [apply_ite GestureState.currentGesture]
    simp [hstate.1]
  · simp only [gestureFrame, gestureSpeakingFrame, gestureSelect, if_neg hnotdue, if_true]
    rw [apply_ite GestureState.currentGesture]
    simp [hstate.1, hfloor]
  · simp only [gestureFrame, gestureSpeakingFrame, gestureSelect, if_neg hnotdue, if_true]
    rw [apply_ite GestureState.nextGestureTime]
    simp [hstate.2]

/-- C6: after a frame on which isSpeaking is false, the gesture state has
currentVariant 0 and the expression state has mood neutral with target
intensity 0 (under the standing invariant that a neutral mood carries zero
target intensity — true initially and preserved by every frame); and on a
speaking frame with elapsedTime < nextSelectTime the variant is unchanged,
so the variant changes only when the timer is due (it is merely reset to
the idle variant 0 on silence). -/
theorem C6_silence_reset (es : ExprState) (gs : GestureState)
    (t dt rMood rInt rTime : ℚ) (gt gdt speechIntensity rVar rTime2 : ℝ)
    (hinv : es.currentExpression = Mood.neutral → es.targetExpressionIntensity = 0) :
    ((exprFrame false es t dt rMood rInt rTime).currentExpression = Mood.neutral ∧
     (exprFrame false es t dt rMood rInt rTime).targetExpressionIntensity = 0 ∧
     (gestureFrame false gs gt gdt speechIntensity rVar rTime2).currentGesture = 0) ∧
    (gt < gs.nextGestureTime →
      (gestureFrame true gs gt gdt speechIntensity rVar rTime2).currentGesture
        = gs.currentGesture) := by
  constructor
  · refine ⟨?_, ?_, ?_⟩
    · by_cases hm : es.currentExpression = Mood.neutral
      · simp [exprFrame, exprSelect, hm, apply_ite ExprState.currentExpression]
      · simp [exprFrame, exprSelect, hm, apply_ite ExprState.currentExpression]
    · by_cases hm : es.currentExpression = Mood.neutral
      · simp [exprFrame, exprSelect, hm, hinv hm,
          apply_ite ExprState.targetExpressionIntensity]
      · simp [exprFrame, exprSelect, hm,
          apply_ite ExprState.targetExpressionIntensity]
    · simp [gestureFrame, gestureIdleFrame]
  · intro hlt
    have hnotdue : ¬ (gs.nextGestureTime ≤ gt) := not_le.2 hlt
    simp [gestureFrame, gestureSpeakingFrame, gestureSelect, hnotdue,
      apply_ite GestureState.currentGesture]

/-- C6 witness: with a neutral zero-intensity expression state and a
speaking frame at t = 1 before the timer at 5, the mood stays neutral at
intensity 0, the idle frame resets the variant to 0, and the speaking
frame keeps the variant 4. -/
theorem C6_silence_reset_witness :
    ((exprFrame false ⟨Mood.neutral, Mood.neutral, 0, 0, 1⟩ 0 (1/60) 0 0 0).currentExpression
        = Mood.neutral ∧
      (exprFrame false ⟨Mood.neutral, Mood.neutral, 0, 0, 1⟩ 0 (1/60) 0 0 0).targetExpressionIntensity
        = 0 ∧
      (gestureFrame false ⟨4, 0, 0, 5, 1, ⟨0, 0, 0⟩, ⟨0, 0, 0⟩, ⟨0, 0, 0⟩, 0⟩
          1 (1/60) 0 0 0).currentGesture = 0) ∧
    (gestureFrame true ⟨4, 0, 0, 5, 1, ⟨0, 0, 0⟩, ⟨0, 0, 0⟩, ⟨0, 0, 0⟩, 0⟩
        1 (1/60) 0 0 0).currentGesture = 4 :=
  have h := C6_silence_reset ⟨Mood.neutral, Mood.neutral, 0, 0, 1⟩
    ⟨4, 0, 0, 5, 1, ⟨0, 0, 0⟩, ⟨0, 0, 0⟩, ⟨0, 0, 0⟩, 0⟩
    0 (1/60) 0 0 0 1 (1/60) 0 0 0 (fun _ => rfl)
  ⟨h.1, h.2 (by norm_num)⟩

/-! ### Body animator (lines 420-439, 585-650, 680-744)

Each definition takes `prev`, the bone-rotation value before the frame, so
that whether the written value depends on it (smoothed channel) or not
(direct write) is expressible.  Spine, chest and hips are written
directly; upper/lower arms, hands, shoulders and fingers are smoothed. -/

/-- base breathing sinusoid (line 422). -/
noncomputable def breathCycle (t : ℝ) : ℝ := Real.sin (t * 1.2) * 0.008

/-- body-sway sinusoid (line 423). -/
noncomputable def swayCycle (t : ℝ) : ℝ := Real.sin (t * 0.6) * 0.006

/-- breathing bonus while speaking (line 426). -/
noncomputable def speakingBreath (isSpeaking : Bool) (speechIntensity : ℝ) : ℝ :=
  if isSpeaking then speechIntensity * 0.015 else 0

/-- spine.rotation.x write of the frame (line 431): direct assignment. -/
noncomputable def spineRotationX (prev t : ℝ) (isSpeaking : Bool) (speechIntensity : ℝ) : ℝ :=
  breathCycle t + speakingBreath isSpeaking speechIntensity

/-- spine.rotation.z write of the frame (line 432): direct assignment. -/
noncomputable def spineRotationZ (prev t : ℝ) : ℝ := swayCycle t

/-- chest.rotation.x write of the frame (line 438): direct assignment. -/
noncomputable def chestRotationX (prev t : ℝ) (isSpeaking : Bool) (speechIntensity : ℝ) : ℝ :=
  (breathCycle t + speakingBreath isSpeaking speechIntensity) * 0.5

/-- hips.rotation.y write of the frame (lines 710-713): direct assignment
of the hip-sway sinusoid. -/
noncomputable def hipsRotationY (prev t : ℝ) : ℝ := Real.sin (t * 0.5) * 0.005

/-- arm gesture amplitude while speaking (lines 586-588). -/
noncomputable def gestureIntensity (speechIntensity : ℝ) : ℝ :=
  min (speechIntensity * 0.25) 0.15 * (if 0.5 < speechIntensity then 1.6 else 1.1)

/-- left upper-arm x target (line 591 speaking, line 614 idle). -/
noncomputable def targetLeftArmRotationX (isSpeaking : Bool) (t speechIntensity : ℝ) : ℝ :=
  if isSpeaking then Real.sin (t * 1.1) * gestureIntensity speechIntensity * 1.2
  else Real.sin (t * 0.65) * 0.012

/-- left upper-arm x channel after the frame (line 634): smoothed at rate
0.1. -/
noncomputable def leftArmRotationX (prev : ℝ) (isSpeaking : Bool) (t speechIntensity dt : ℝ) : ℝ :=
  smoothLerp prev (targetLeftArmRotationX isSpeaking t speechIntensity) 0.1 dt

/-- left lower-arm x target (line 601 speaking, line 622 idle). -/
noncomputable def targetLeftLowerArmRotationX (isSpeaking : Bool) (t speechIntensity : ℝ) : ℝ :=
  if isSpeaking then -0.2 + Real.sin (t * 1.4) * (gestureIntensity speechIntensity * 1.1)
  else -0.2

/-- left lower-arm x channel after the frame (line 642): smoothed at rate
0.1. -/
noncomputable def leftLowerArmRotationX (prev : ℝ) (isSpeaking : Bool) (t speechIntensity dt : ℝ) : ℝ :=
  smoothLerp prev (targetLeftLowerArmRotationX isSpeaking t speechIntensity) 0.1 dt

/-- left hand x target (line 605 speaking, line 625 idle). -/
noncomputable def targetHandRotationLeftX (isSpeaking : Bool) (t speechIntensity : ℝ) : ℝ :=
  if isSpeaking then Real.sin (t * 1.6) * gestureIntensity speechIntensity * 0.4
  else 0

/-- left hand x channel after the frame (line 645): smoothed at rate 0.1. -/
noncomputable def handRotationLeftX (prev : ℝ) (isSpeaking : Bool) (t speechIntensity dt : ℝ) : ℝ :=
  smoothLerp prev (targetHandRotationLeftX isSpeaking t speechIntensity) 0.1 dt

/-- left shoulder z target: the emphasis sinusoid above the 0.35 intensity
threshold while speaking (line 686), 0 otherwise (line 699). -/
noncomputable def targetLeftShoulderRotationZ (isSpeaking : Bool) (t speechIntensity : ℝ) : ℝ :=
  if isSpeaking = true ∧ 0.35 < speechIntensity then Real.sin (t * 1.3) * 0.03 else 0

/-- left shoulder z channel after the frame (lines 688 and 699): both
branches smooth toward their target at rate 0.08. -/
noncomputable def leftShoulderRotationZ (prev : ℝ) (isSpeaking : Bool) (t speechIntensity dt : ℝ) : ℝ :=
  smoothLerp prev (targetLeftShoulderRotationZ isSpeaking t speechIntensity) 0.08 dt

/-- finger-curl target of finger-bone `index`: phase-offset sinusoid above
the 0.3 intensity threshold while speaking (line 733), 0 otherwise. -/
noncomputable def fingerCurlTarget (isSpeaking : Bool) (t speechIntensity : ℝ) (index : ℕ) : ℝ :=
  if isSpeaking = true ∧ 0.3 < speechIntensity
  then Real.sin (t * 1.5 + index * 0.2) * speechIntensity * 0.15 else 0

/-- finger-bone z channel after the frame (lines 734 and 741): both
branches smooth toward their target at rate 0.1. -/
noncomputable def fingerRotationZ (prev : ℝ) (isSpeaking : Bool) (t speechIntensity dt : ℝ)
    (index : ℕ) : ℝ :=
  smoothLerp prev (fingerCurlTarget isSpeaking t speechIntensity index) 0.1 dt

/-- C7 (amended): the upper-arm, lower-arm, hand, shoulder and finger
channels are written through the smoothing utility at their own rates (0.1
for arms, hands and fingers, 0.08 for shoulders), each frame value lying
between the previous value and the channel target; but the spine and chest
breathing and the hip sway are assigned directly — pure functions of time,
speaking flag and intensity, independent of the previous bone rotation. -/
theorem C7_body_channels (prev t dt speechIntensity : ℝ) (isSpeaking : Bool)
    (hdt : 0 ≤ dt) (index : ℕ) :
    (leftArmRotationX prev isSpeaking t speechIntensity dt
        = smoothLerp prev (targetLeftArmRotationX isSpeaking t speechIntensity) 0.1 dt ∧
      min prev (targetLeftArmRotationX isSpeaking t speechIntensity)
        ≤ leftArmRotationX prev isSpeaking t speechIntensity dt ∧
      leftArmRotationX prev isSpeaking t speechIntensity dt
        ≤ max prev (targetLeftArmRotationX isSpeaking t speechIntensity)) ∧
    (min prev (targetLeftLowerArmRotationX isSpeaking t speechIntensity)
        ≤ leftLowerArmRotationX prev isSpeaking t speechIntensity dt ∧
      leftLowerArmRotationX prev isSpeaking t speechIntensity dt
        ≤ max prev (targetLeftLowerArmRotationX isSpeaking t speechIntensity)) ∧
    (min prev (targetHandRotationLeftX isSpeaking t speechIntensity)
        ≤ handRotationLeftX prev isSpeaking t speechIntensity dt ∧
      handRotationLeftX prev isSpeaking t speechIntensity dt
        ≤ max prev (targetHandRotationLeftX isSpeaking t speechIntensity)) ∧
    (min prev (targetLeftShoulderRotationZ isSpeaking t speechIntensity)
        ≤ leftShoulderRotationZ prev isSpeaking t speechIntensity dt ∧
      leftShoulderRotationZ prev isSpeaking t speechIntensity dt
        ≤ max prev (targetLeftShoulderRotationZ isSpeaking t speechIntensity)) ∧
    (min prev (fingerCurlTarget isSpeaking t speechIntensity index)
        ≤ fingerRotationZ prev isSpeaking t speechIntensity dt index ∧
      fingerRotationZ prev isSpeaking t speechIntensity dt index
        ≤ max prev (fingerCurlTarget isSpeaking t speechIntensity index)) ∧
    (∀ p q : ℝ, spineRotationX p t isSpeaking speechIntensity
        = spineRotationX q t isSpeaking speechIntensity) ∧
    (∀ p q : ℝ, spineRotationZ p t = spineRotationZ q t) ∧
    (∀ p q : ℝ, chestRotationX p t isSpeaking speechIntensity
        = chestRotationX q t isSpeaking speechIntensity) ∧
    (∀ p q : ℝ, hipsRotationY p t = hipsRotationY q t) := by
  have h01 : (0:ℝ) < 0.1 := by norm_num
  have h11 : (0.1:ℝ) < 1 := by norm_num
  have h08 : (0:ℝ) < 0.08 := by norm_num
  have h18 : (0.08:ℝ) < 1 := by norm_num
  refine ⟨⟨rfl, ?_⟩, ?_, ?_, ?_, ?_, fun p q => rfl, fun p q => rfl,
    fun p q => rfl, fun p q => rfl⟩
  · exact smoothLerp_between h01 h11 hdt
  · exact smoothLerp_between h01 h11 hdt
  · exact smoothLerp_between h01 h11 hdt
  · exact smoothLerp_between h08 h18 hdt
  · exact smoothLerp_between h01 h11 hdt

/-- C7 witness: at prev = 0, t = 0, dt = 1/60, intensity 0, not speaking,
the smoothed left-arm value stays between 0 and its target. -/
theorem C7_body_channels_witness :
    min (0:ℝ) (targetLeftArmRotationX false 0 0)
      ≤ leftArmRotationX 0 false 0 0 (1/60) ∧
    leftArmRotationX 0 false 0 0 (1/60)
      ≤ max (0:ℝ) (targetLeftArmRotationX false 0 0) :=
  ⟨(C7_body_channels 0 0 (1/60) 0 false (by norm_num) 0).1.2.1,
   (C7_body_channels 0 0 (1/60) 0 false (by norm_num) 0).1.2.2⟩

/-- C7 counterexample: the hip and spine writes ignore the previous bone
rotation — with prev = 1 and target sin(0)·0.005 = 0 the frame writes 0
directly, while a smoothing step at rate 0.1 over a 1/60 s frame would
have written 0.9 — so the hip sway (and spine breathing) is not passed
through the smoothing utility before being written. -/
theorem C7_counterexample :
    hipsRotationY 1 0 = 0 ∧
    hipsRotationY 1 0 = hipsRotationY 0 0 ∧
    spineRotationX 1 0 false 0 = spineRotationX 0 0 false 0 ∧
    smoothLerp 1 (hipsRotationY 0 0) 0.1 (1/60) = 9/10 ∧
    smoothLerp 1 (hipsRotationY 0 0) 0.1 (1/60) ≠ hipsRotationY 1 0 := by
  have hhip : hipsRotationY 1 0 = 0 := by
    simp [hipsRotationY]
  have hhip0 : hipsRotationY 0 0 = 0 := by
    simp [hipsRotationY]
  have hsl : smoothLerp 1 (hipsRotationY 0 0) 0.1 (1/60) = 9/10 := by
    rw [hhip0]
    unfold smoothLerp
    rw [show (1:ℝ)/60 * 60 = 1 by norm_num, Real.rpow_one]
    norm_num
  refine ⟨hhip, by rw [hhip, hhip0], by simp [spineRotationX], hsl, ?_⟩
  rw [hsl, hhip]
  norm_num

end Avatar
